import Mathlib

/-!
Shallow embedding of the fbmeshd gateway-connectivity monitor and the
routing-path introspection code, for verification of the specification.

Sources embedded:
* `src/fbmeshd/gateway-connectivity-monitor/GatewayConnectivityMonitor.cpp`
* `src/fbmeshd/routing/Routing.h` (the `MeshPath` record and its defaults)
* `src/fbmeshd/MeshServiceHandler.h` (the `dumpMpath` row construction)

Side effects (proc-fs writes, debug-fs stats, netlink root-mode, calls into
the routing engine, stat-counter increments, socket connect attempts) are
modelled as an event trace `List Ev`; machine integers are `Nat`/`Int` with
explicit `% 2 ^ 64` where the C++ performs a wrapping cast.
-/

namespace fbmeshd

/-- Observable effects of the monitor, in program order. -/
inductive Ev where
  /-- `writeProcFs(value, path)` — a write to `/proc/sys/...`. -/
  | procWrite (path value : String)
  /-- `DebugFsWriter::writeDebugStat(key, value)`. -/
  | debugStat (key value : String)
  /-- `nlHandler_.setRootMode(v)`. -/
  | setRootMode (v : Nat)
  /-- `routing_->setGatewayStatus(b)`. -/
  | setGatewayStatus (b : Bool)
  /-- `statsClient_.incrementSumStat(name)`. -/
  | incStat (name : String)
  /-- `socket.connect(monitoredInterface, addr, timeout)` was attempted. -/
  | connectAttempt (addr : String)
  /-- `RouteDampener::flap()` was invoked. -/
  | flapCalled
  deriving DecidableEq, Repr

/-- Result of a socket connect attempt (`Socket::Result` from
`gateway-connectivity-monitor/Socket.h`). -/
structure SocketResult where
  success : Bool
  errorMsg : String
  deriving DecidableEq, Repr

/-- Modelled from the spec: `Socket.h` is not under `src/`; in
`probeWanConnectivity` the C++ declares `Socket::Result result;`
default-constructed, i.e. `success = false` and an empty error message,
before any connect attempt assigns it. -/
def SocketResult.default : SocketResult := { success := false, errorMsg := "" }

/-- Configuration of the monitor (constructor arguments that the embedded
functions read).  `hasRouting` models whether the `Routing*` pointer is
non-null; `decay factors` for the dampener are passed at call sites. -/
structure Config where
  monitoredInterface : String
  monitoredAddresses : List String
  robustness : Nat
  penalty : ℚ
  suppressLimit : ℚ
  reuseLimit : ℚ
  maxSuppressLimit : ℚ
  setRootModeIfGate : Nat
  hasRouting : Bool
  deriving DecidableEq, Repr

/-- Mutable state of the monitor: the `isGatewayActive_` flag together with
the dampener state it inherits from `RouteDampener` (figure-of-merit and
suppressed flag; `RouteDampener` is not under `src/`, its state is modelled
from the spec §4.4). -/
structure Monitor where
  isGatewayActive : Bool
  fom : ℚ
  suppressed : Bool
  deriving DecidableEq, Repr

/-- Stat name incremented when a probe succeeds
(`GatewayConnectivityMonitor.cpp:107`). -/
def probeSuccessStat : String :=
  "fbmeshd.gateway_connectivity_monitor.probe_wan_connectivity.success"

/-- Prefix of the stat name incremented when every connect attempt of a
probe fails; the failure mode of the last attempt is appended
(`GatewayConnectivityMonitor.cpp:112`). -/
def probeFailedStatStem : String :=
  "fbmeshd.gateway_connectivity_monitor.probe_wan_connectivity.failed."

/-- The connect loop of `probeWanConnectivity`
(`GatewayConnectivityMonitor.cpp:92`–`103`): iterate over the monitored
addresses in order, assigning `result` on every attempt, breaking at the
first success.  Returns `(connectionSucceeded, result, trace)`. -/
def probeLoop (connect : String → SocketResult) :
    List String → SocketResult → Bool × SocketResult × List Ev
  | [], result => (false, result, [])
  | a :: rest, _ =>
      if (connect a).success then (true, connect a, [Ev.connectAttempt a])
      else
        let p := probeLoop connect rest (connect a)
        (p.1, p.2.1, Ev.connectAttempt a :: p.2.2)

/-- `GatewayConnectivityMonitor::probeWanConnectivity`
(`GatewayConnectivityMonitor.cpp:88`–`117`): try each monitored address in
configured order, short-circuiting on the first successful connect; then
increment exactly one stat — success, or failure keyed by the error message
of the last attempted address (of a default-constructed result if no
address was attempted). -/
def probeWanConnectivity (cfg : Config) (connect : String → SocketResult) :
    Bool × List Ev :=
  let p := probeLoop connect cfg.monitoredAddresses SocketResult.default
  if p.1 then (true, p.2.2 ++ [Ev.incStat probeSuccessStat])
  else (false, p.2.2 ++ [Ev.incStat (probeFailedStatStem ++ p.2.1.errorMsg)])

/-- The retry loop of `probeWanConnectivityRobustly`
(`GatewayConnectivityMonitor.cpp:80`–`85`), with `fuel` the number of tries
remaining and `tryNum` the index of the current try.  `connect` is indexed
by try number so distinct tries may observe distinct network conditions. -/
def robustLoop (cfg : Config) (connect : Nat → String → SocketResult) :
    Nat → Nat → Bool × List Ev
  | 0, _ => (false, [])
  | fuel + 1, tryNum =>
      if (probeWanConnectivity cfg (connect tryNum)).1 then
        (true, (probeWanConnectivity cfg (connect tryNum)).2)
      else
        let r := robustLoop cfg connect fuel (tryNum + 1)
        (r.1, (probeWanConnectivity cfg (connect tryNum)).2 ++ r.2)

/-- `GatewayConnectivityMonitor::probeWanConnectivityRobustly`
(`GatewayConnectivityMonitor.cpp:78`–`86`): up to `robustness` calls of
`probeWanConnectivity`, returning `true` at the first success. -/
def probeWanConnectivityRobustly (cfg : Config)
    (connect : Nat → String → SocketResult) : Bool × List Ev :=
  robustLoop cfg connect cfg.robustness 0

/-- `GatewayConnectivityMonitor::advertiseDefaultRoute`
(`GatewayConnectivityMonitor.cpp:161`–`169`). -/
def advertiseDefaultRoute (cfg : Config) : List Ev :=
  (if cfg.setRootModeIfGate ≠ 0 then [Ev.setRootMode cfg.setRootModeIfGate]
   else []) ++
  (if cfg.hasRouting then [Ev.setGatewayStatus true] else [])

/-- `GatewayConnectivityMonitor::withdrawDefaultRoute`
(`GatewayConnectivityMonitor.cpp:171`–`179`). -/
def withdrawDefaultRoute (cfg : Config) : List Ev :=
  (if cfg.setRootModeIfGate ≠ 0 then [Ev.setRootMode 0] else []) ++
  (if cfg.hasRouting then [Ev.setGatewayStatus false] else [])

/-- `GatewayConnectivityMonitor::dampen`
(`GatewayConnectivityMonitor.cpp:124`–`130`): the dampener's suppression
hook; acts only while the gateway is active. -/
def dampen (cfg : Config) (s : Monitor) : List Ev :=
  if s.isGatewayActive then
    Ev.debugStat "is_gateway" "false" :: withdrawDefaultRoute cfg
  else []

/-- `GatewayConnectivityMonitor::undampen`
(`GatewayConnectivityMonitor.cpp:132`–`138`): the dampener's reuse hook;
acts only while the gateway is active. -/
def undampen (cfg : Config) (s : Monitor) : List Ev :=
  if s.isGatewayActive then
    Ev.debugStat "is_gateway" "true" :: advertiseDefaultRoute cfg
  else []

/-- Modelled from the spec: `RouteDampener::flap` is not under `src/`
(only its caller is).  Per spec §4.4: decay the figure-of-merit (the
elapsed-time multiplier `0.5 ^ (dt / halfLife)` is abstracted as the
argument `d`), cap it, add `penalty`, cap again; if not yet suppressed and
the result reaches `suppressLimit`, become suppressed and invoke the
`dampen()` hook. -/
def flap (cfg : Config) (d : ℚ) (s : Monitor) : Monitor × List Ev :=
  let fom2 :=
    min cfg.maxSuppressLimit (min cfg.maxSuppressLimit (s.fom * d) + cfg.penalty)
  if s.suppressed = false ∧ cfg.suppressLimit ≤ fom2 then
    ({ s with fom := fom2, suppressed := true },
      Ev.flapCalled :: dampen cfg { s with fom := fom2, suppressed := true })
  else ({ s with fom := fom2 }, [Ev.flapCalled])

/-- Modelled from the spec: `RouteDampener::isDampened` is not under
`src/`; per spec §3 it reports the `suppressed` flag. -/
def isDampened (s : Monitor) : Bool := s.suppressed

/-- `GatewayConnectivityMonitor::checkRoutesAndAdvertise`
(`GatewayConnectivityMonitor.cpp:140`–`159`): one connectivity-check tick.
Probe robustly; on success advertise unless dampened, flap on the
inactive→active transition, set `isGatewayActive_`; on failure withdraw
and clear `isGatewayActive_`. -/
def checkRoutesAndAdvertise (cfg : Config)
    (connect : Nat → String → SocketResult) (d : ℚ) (s : Monitor) :
    Monitor × List Ev :=
  let pr := probeWanConnectivityRobustly cfg connect
  if pr.1 then
    let advEv :=
      if isDampened s = false then
        Ev.debugStat "is_gateway" "true" :: advertiseDefaultRoute cfg
      else []
    let fl := if s.isGatewayActive = false then flap cfg d s else (s, [])
    ({ fl.1 with isGatewayActive := true }, pr.2 ++ advEv ++ fl.2)
  else
    ({ s with isGatewayActive := false },
      pr.2 ++ Ev.debugStat "is_gateway" "false" :: withdrawDefaultRoute cfg)

/-- Path of the per-interface reverse-path-filter proc file written by the
constructor (`GatewayConnectivityMonitor.cpp:66`). -/
def rpFilterPath (iface : String) : String :=
  "/proc/sys/net/ipv4/conf/" ++ iface ++ "/rp_filter"

/-- Path of the global reverse-path-filter proc file written by the
constructor (`GatewayConnectivityMonitor.cpp:67`). -/
def rpFilterAllPath : String := "/proc/sys/net/ipv4/conf/all/rp_filter"

/-- Effects of `GatewayConnectivityMonitor::GatewayConnectivityMonitor`
(`GatewayConnectivityMonitor.cpp:34`–`76`): write "0" to the two rp_filter
proc files, then arm the connectivity-check timer (the timer arming itself
emits no event). -/
def constructorEvents (cfg : Config) : List Ev :=
  [Ev.procWrite (rpFilterPath cfg.monitoredInterface) "0",
   Ev.procWrite rpFilterAllPath "0"]

/-- The trace of `n` consecutive connectivity-check timer ticks starting
from state `s`, with `connect` indexed by tick number then try number and
`d` the dampener decay factor per tick. -/
def ticksTrace (cfg : Config) (connect : Nat → Nat → String → SocketResult)
    (d : Nat → ℚ) : Nat → Nat → Monitor → List Ev
  | 0, _, _ => []
  | n + 1, tick, s =>
      (checkRoutesAndAdvertise cfg (connect tick) (d tick) s).2 ++
        ticksTrace cfg connect d n (tick + 1)
          (checkRoutesAndAdvertise cfg (connect tick) (d tick) s).1

/-- The whole observable trace of a monitor: construction followed by `n`
probe ticks. -/
def monitorTrace (cfg : Config) (connect : Nat → Nat → String → SocketResult)
    (d : Nat → ℚ) (n : Nat) (s : Monitor) : List Ev :=
  constructorEvents cfg ++ ticksTrace cfg connect d n 0 s

/-- `Routing::MeshPath` (`Routing.h:51`–`80`).  MAC addresses are `Nat`
(their 48-bit value); `steady_clock` time points are `Int` milliseconds
since an arbitrary epoch.  The C++ member initializers give a freshly
constructed entry zeros, `false` flags and `expTime = steady_clock::now()`
evaluated at construction. -/
structure MeshPath where
  dst : Nat
  nextHop : Nat
  sn : Nat
  metric : Nat
  nextHopMetric : Nat
  hopCount : Nat
  expTime : Int
  isRoot : Bool
  isGate : Bool
  deriving DecidableEq, Repr

/-- The constructor `MeshPath(folly::MacAddress _dst)` (`Routing.h:52`)
together with the in-class member initializers (`Routing.h:71`–`79`);
`now` is the construction-time `steady_clock::now()`. -/
def MeshPath.fresh (dst : Nat) (now : Int) : MeshPath :=
  { dst := dst, nextHop := 0, sn := 0, metric := 0, nextHopMetric := 0,
    hopCount := 0, expTime := now, isRoot := false, isGate := false }

/-- `MeshPath::expired` (`Routing.h:65`–`68`):
`steady_clock::now() > expTime`, with `now` the time of the call. -/
def MeshPath.expired (p : MeshPath) (now : Int) : Bool := now > p.expTime

/-- Modelled from the spec: `Routing::getMeshPath` (the `getOrInsert`
operation, declared at `Routing.h:115`) is implemented in `Routing.cpp`,
which is not under `src/`.  Per spec §4.2 it returns the existing entry
for `mac` or inserts and returns a freshly constructed one.  The table is
an association list keyed by MAC. -/
def getOrInsert (table : List (Nat × MeshPath)) (mac : Nat) (now : Int) :
    MeshPath × List (Nat × MeshPath) :=
  match table.lookup mac with
  | some p => (p, table)
  | none => (MeshPath.fresh mac now, (mac, MeshPath.fresh mac now) :: table)

/-- A row of the `dumpMpath` RPC result (`thrift::MpathEntry` as filled in
`MeshServiceHandler.h:148`–`164`). -/
structure MpathEntry where
  dst : Nat
  nextHop : Nat
  sn : Nat
  metric : Nat
  expTimeRemainingMs : Nat
  nextHopMetric : Nat
  hopCount : Nat
  isRoot : Bool
  isGate : Bool
  deriving DecidableEq, Repr

/-- The expiry field computed by `MeshServiceHandler::dumpMpath`
(`MeshServiceHandler.h:154`–`159`):
`std::max((uint64_t)0, (uint64_t)duration_cast<milliseconds>(expTime - now).count())`.
The signed 64-bit millisecond count is cast to `uint64_t` — a wrapping
reinterpretation, `% 2 ^ 64` — before the `max` with unsigned zero is
taken. -/
def expTimeRemainingMsCode (expTime now : Int) : Nat :=
  max 0 ((expTime - now) % 2 ^ 64).toNat

/-- The expiry field as the specification describes it:
`expTimeRemainingMs = max(0, expTime - now)` in milliseconds. -/
def expTimeRemainingMsSpec (expTime now : Int) : Int :=
  max 0 (expTime - now)

/-- One row produced by `MeshServiceHandler::dumpMpath`
(`MeshServiceHandler.h:148`–`164`) for path `p` at time `now`. -/
def dumpMpathRow (p : MeshPath) (now : Int) : MpathEntry :=
  { dst := p.dst, nextHop := p.nextHop, sn := p.sn, metric := p.metric,
    expTimeRemainingMs := expTimeRemainingMsCode p.expTime now,
    nextHopMetric := p.nextHopMetric, hopCount := p.hopCount,
    isRoot := p.isRoot, isGate := p.isGate }

/-- Classifier: stat-counter increment events. -/
def isIncStat : Ev → Bool
  | Ev.incStat _ => true
  | _ => false

/-- Classifier: the probe success counter increment. -/
def isSuccessStat : Ev → Bool
  | Ev.incStat n => n == probeSuccessStat
  | _ => false

/-- Classifier: socket connect attempts. -/
def isConnectAttempt : Ev → Bool
  | Ev.connectAttempt _ => true
  | _ => false

/-- Classifier: proc-fs writes. -/
def isProcWrite : Ev → Bool
  | Ev.procWrite _ _ => true
  | _ => false

/-- A concrete configuration used to instantiate the theorems below:
two monitored addresses, three tries per tick, root mode 4, the dampener
parameters of spec scenario S4. -/
def cfgW : Config :=
  { monitoredInterface := "eth0",
    monitoredAddresses := ["192.0.2.1:80", "198.51.100.1:80"],
    robustness := 3, penalty := 1000, suppressLimit := 2000,
    reuseLimit := 500, maxSuppressLimit := 20000,
    setRootModeIfGate := 4, hasRouting := true }

/-- A concrete network: every connect refuses on tries 0 and 1; on try 2
the first address accepts (spec scenario S5 shape). -/
def connW : Nat → String → SocketResult := fun tryNum _ =>
  if tryNum = 2 then { success := true, errorMsg := "" }
  else { success := false, errorMsg := "refused" }

/-- A monitor state with the gateway inactive and the dampener clear. -/
def sInactiveW : Monitor := { isGatewayActive := false, fom := 0, suppressed := false }

/-- A monitor state with the gateway active and the dampener clear. -/
def sActiveW : Monitor := { isGatewayActive := true, fom := 0, suppressed := false }

/-! ## Lemmas about the probe loop -/

theorem probeLoop_success_iff (c : String → SocketResult) :
    ∀ (addrs : List String) (r0 : SocketResult),
      (probeLoop c addrs r0).1 = true ↔ ∃ a ∈ addrs, (c a).success = true
  | [], r0 => by simp [probeLoop]
  | a :: rest, r0 => by
      by_cases h : (c a).success = true
      · simp [probeLoop, h]
      · simp only [probeLoop, h, if_false, Bool.false_eq_true]
        simp [probeLoop_success_iff c rest (c a), h]

theorem probeLoop_attempts (c : String → SocketResult) :
    ∀ (addrs : List String) (r0 : SocketResult),
      (probeLoop c addrs r0).2.2 =
        (addrs.takeWhile (fun a => !(c a).success) ++
          (addrs.dropWhile (fun a => !(c a).success)).take 1).map
          Ev.connectAttempt
  | [], r0 => by simp [probeLoop]
  | a :: rest, r0 => by
      by_cases h : (c a).success = true
      · simp [probeLoop, h, List.takeWhile_cons, List.dropWhile_cons]
      · have hb : (c a).success = false := by
          cases hs : (c a).success
          · rfl
          · exact absurd hs h
        simp [probeLoop, hb, List.takeWhile_cons, List.dropWhile_cons,
          probeLoop_attempts c rest (c a)]

theorem probeLoop_allFail_result (c : String → SocketResult) :
    ∀ (addrs : List String) (r0 : SocketResult),
      (∀ a ∈ addrs, (c a).success = false) →
      (probeLoop c addrs r0).2.1 = ((addrs.getLast?).map c).getD r0
  | [], r0, _ => by simp [probeLoop]
  | a :: rest, r0, h => by
      have ha : (c a).success = false := h a (by simp)
      have hrest : ∀ x ∈ rest, (c x).success = false := fun x hx =>
        h x (by simp [hx])
      cases rest with
      | nil => simp [probeLoop, ha]
      | cons b bs =>
          have := probeLoop_allFail_result c (b :: bs) (c a) hrest
          simp only [probeLoop, ha, Bool.false_eq_true, if_false]
          rw [List.getLast?_cons_cons]
          exact this

theorem probeWanConnectivity_fst (cfg : Config) (c : String → SocketResult) :
    (probeWanConnectivity cfg c).1 =
      (probeLoop c cfg.monitoredAddresses SocketResult.default).1 := by
  unfold probeWanConnectivity
  by_cases h : (probeLoop c cfg.monitoredAddresses SocketResult.default).1 = true <;>
    simp [h]

theorem probeWanConnectivity_success_iff (cfg : Config)
    (c : String → SocketResult) :
    (probeWanConnectivity cfg c).1 = true ↔
      ∃ a ∈ cfg.monitoredAddresses, (c a).success = true := by
  rw [probeWanConnectivity_fst]
  exact probeLoop_success_iff c cfg.monitoredAddresses SocketResult.default

theorem probeWanConnectivity_trace (cfg : Config) (c : String → SocketResult) :
    (probeWanConnectivity cfg c).2 =
      (probeLoop c cfg.monitoredAddresses SocketResult.default).2.2 ++
        [Ev.incStat
          (if (probeLoop c cfg.monitoredAddresses SocketResult.default).1 then
            probeSuccessStat
          else
            probeFailedStatStem ++
              (probeLoop c cfg.monitoredAddresses
                  SocketResult.default).2.1.errorMsg)] := by
  unfold probeWanConnectivity
  by_cases h : (probeLoop c cfg.monitoredAddresses SocketResult.default).1 = true <;>
    simp [h]

/-- The two stat names of a probe differ: the failure counter (whatever the
reason suffix) is never the success counter. -/
theorem failedStat_ne_successStat (msg : String) :
    probeFailedStatStem ++ msg ≠ probeSuccessStat := by
  intro h
  have hlen := congrArg String.length h
  rw [String.length_append] at hlen
  have hp : probeFailedStatStem.length = probeSuccessStat.length := by decide
  have hm : msg.length = 0 := by omega
  have hd : msg.data = [] := List.eq_nil_of_length_eq_zero hm
  have hmsg : msg = "" := by
    cases msg with
    | mk l => exact congrArg String.mk hd
  rw [hmsg] at h
  exact absurd h (by decide)

theorem connectAttempt_countP_incStat (l : List String) :
    ((l.map Ev.connectAttempt).countP isIncStat) = 0 := by
  simp [List.countP_map, Function.comp_def, isIncStat, List.countP_eq_zero]

theorem connectAttempt_countP_successStat (l : List String) :
    ((l.map Ev.connectAttempt).countP isSuccessStat) = 0 := by
  simp [List.countP_map, Function.comp_def, isSuccessStat, List.countP_eq_zero]

/-- Every probe call increments exactly one stat counter. -/
theorem probeWanConnectivity_countP_incStat (cfg : Config)
    (c : String → SocketResult) :
    (probeWanConnectivity cfg c).2.countP isIncStat = 1 := by
  rw [probeWanConnectivity_trace, List.countP_append]
  rw [probeLoop_attempts, connectAttempt_countP_incStat]
  simp [isIncStat]

/-- A probe call increments the success counter exactly when it succeeded. -/
theorem probeWanConnectivity_countP_successStat (cfg : Config)
    (c : String → SocketResult) :
    (probeWanConnectivity cfg c).2.countP isSuccessStat =
      if (probeWanConnectivity cfg c).1 = true then 1 else 0 := by
  rw [probeWanConnectivity_trace, probeWanConnectivity_fst, List.countP_append]
  rw [probeLoop_attempts, connectAttempt_countP_successStat]
  by_cases h : (probeLoop c cfg.monitoredAddresses SocketResult.default).1 = true
  · simp [h, isSuccessStat]
  · simp only [h, if_false, Bool.not_eq_true] at *
    simp [h, isSuccessStat, List.countP_cons, failedStat_ne_successStat]

theorem robustLoop_success_iff (cfg : Config)
    (connect : Nat → String → SocketResult) :
    ∀ (fuel t : Nat),
      (robustLoop cfg connect fuel t).1 = true ↔
        ∃ k < fuel, (probeWanConnectivity cfg (connect (t + k))).1 = true
  | 0, t => by simp [robustLoop]
  | fuel + 1, t => by
      by_cases h : (probeWanConnectivity cfg (connect t)).1 = true
      · constructor
        · intro _
          exact ⟨0, Nat.succ_pos fuel, by simpa using h⟩
        · intro _
          simp [robustLoop, h]
      · have h' : (probeWanConnectivity cfg (connect t)).1 = false := by
          simpa using h
        have hrec := robustLoop_success_iff cfg connect fuel (t + 1)
        constructor
        · intro hl
          have hl' : (robustLoop cfg connect fuel (t + 1)).1 = true := by
            simpa [robustLoop, h'] using hl
          obtain ⟨k, hk, hp⟩ := hrec.mp hl'
          exact ⟨k + 1, by omega,
            by rwa [show t + (k + 1) = t + 1 + k by omega]⟩
        · rintro ⟨k, hk, hp⟩
          match k with
          | 0 =>
              rw [Nat.add_zero] at hp
              simp [h'] at hp
          | k + 1 =>
              have hp' :
                  (probeWanConnectivity cfg (connect (t + 1 + k))).1 = true := by
                rwa [show t + 1 + k = t + (k + 1) by omega]
              have hr : (robustLoop cfg connect fuel (t + 1)).1 = true :=
                hrec.mpr ⟨k, by omega, hp'⟩
              simp [robustLoop, h', hr]

/-- If the tries before `k` fail and try `k` succeeds, the robust probe's
trace is the concatenation of the traces of tries `0`..`k` (so exactly
`k + 1` probe calls were made: the loop stopped at the first success). -/
theorem robustLoop_first_success (cfg : Config)
    (connect : Nat → String → SocketResult) :
    ∀ (k fuel t : Nat), k < fuel →
      (∀ j < k, (probeWanConnectivity cfg (connect (t + j))).1 = false) →
      (probeWanConnectivity cfg (connect (t + k))).1 = true →
      (robustLoop cfg connect fuel t).2 =
        ((List.range (k + 1)).map
          (fun j => (probeWanConnectivity cfg (connect (t + j))).2)).flatten
  | 0, fuel, t, hk, _, hsucc => by
      match fuel, hk with
      | fuel + 1, _ =>
          simp only [robustLoop]
          rw [if_pos (by simpa using hsucc)]
          simp [List.range_succ]
  | k + 1, fuel, t, hk, hfail, hsucc => by
      match fuel, hk with
      | fuel + 1, hk =>
          have h0 : (probeWanConnectivity cfg (connect t)).1 = false := by
            simpa using hfail 0 (Nat.succ_pos k)
          have ih := robustLoop_first_success cfg connect k fuel (t + 1)
            (by omega)
            (fun j hj => by
              have := hfail (j + 1) (by omega)
              rwa [show t + (j + 1) = t + 1 + j by omega] at this)
            (by rwa [show t + (k + 1) = t + 1 + k by omega] at hsucc)
          simp only [robustLoop]
          rw [if_neg (by simp [h0])]
          show (probeWanConnectivity cfg (connect t)).2 ++
              (robustLoop cfg connect fuel (t + 1)).2 = _
          rw [ih]
          conv_rhs => rw [List.range_succ_eq_map, List.map_cons,
            List.flatten_cons, List.map_map]
          congr 1
          apply congrArg List.flatten
          apply List.map_congr_left
          intro j _
          simp only [Function.comp_apply]
          rw [show t + 1 + j = t + Nat.succ j by omega]

/-- In a robust probe whose first `k` tries fail and whose try `k`
succeeds, the success counter is incremented exactly once and stat
counters are incremented exactly `k + 1` times in total. -/
theorem robustLoop_first_success_counts (cfg : Config)
    (connect : Nat → String → SocketResult) (k fuel t : Nat)
    (hk : k < fuel)
    (hfail : ∀ j < k, (probeWanConnectivity cfg (connect (t + j))).1 = false)
    (hsucc : (probeWanConnectivity cfg (connect (t + k))).1 = true) :
    (robustLoop cfg connect fuel t).2.countP isSuccessStat = 1 ∧
      (robustLoop cfg connect fuel t).2.countP isIncStat = k + 1 := by
  rw [robustLoop_first_success cfg connect k fuel t hk hfail hsucc]
  rw [List.countP_flatten, List.countP_flatten, List.map_map, List.map_map]
  constructor
  · rw [List.range_succ, List.map_append, List.sum_append]
    have hz :
        ((List.range k).map
          (List.countP isSuccessStat ∘
            fun j => (probeWanConnectivity cfg (connect (t + j))).2)).sum = 0 := by
      apply List.sum_eq_zero
      intro x hx
      simp only [List.mem_map, List.mem_range] at hx
      obtain ⟨j, hj, rfl⟩ := hx
      simp [Function.comp_apply, probeWanConnectivity_countP_successStat,
        hfail j hj]
    rw [hz]
    simp [Function.comp_apply, probeWanConnectivity_countP_successStat, hsucc]
  · have hone :
        ((List.range (k + 1)).map
          (List.countP isIncStat ∘
            fun j => (probeWanConnectivity cfg (connect (t + j))).2)) =
          (List.range (k + 1)).map (fun _ => 1) := by
      apply List.map_congr_left
      intro j _
      simp [Function.comp_apply, probeWanConnectivity_countP_incStat]
    rw [hone]
    simp

/-! ## Event-classification lemmas -/

theorem probeLoop_events (c : String → SocketResult) (addrs : List String)
    (r0 : SocketResult) :
    ∀ e ∈ (probeLoop c addrs r0).2.2, isConnectAttempt e = true := by
  rw [probeLoop_attempts]
  intro e he
  obtain ⟨a, _, rfl⟩ := List.mem_map.mp he
  rfl

theorem probeWanConnectivity_events (cfg : Config) (c : String → SocketResult) :
    ∀ e ∈ (probeWanConnectivity cfg c).2,
      isConnectAttempt e = true ∨ isIncStat e = true := by
  rw [probeWanConnectivity_trace]
  intro e he
  rcases List.mem_append.mp he with h | h
  · exact Or.inl (probeLoop_events c _ _ e h)
  · simp only [List.mem_singleton] at h
    subst h
    exact Or.inr rfl

theorem robustLoop_events (cfg : Config)
    (connect : Nat → String → SocketResult) :
    ∀ (fuel t : Nat), ∀ e ∈ (robustLoop cfg connect fuel t).2,
      isConnectAttempt e = true ∨ isIncStat e = true
  | 0, t => by simp [robustLoop]
  | fuel + 1, t => by
      intro e he
      by_cases h : (probeWanConnectivity cfg (connect t)).1 = true
      · rw [show (robustLoop cfg connect (fuel + 1) t).2 =
            (probeWanConnectivity cfg (connect t)).2 by
          simp [robustLoop, h]] at he
        exact probeWanConnectivity_events cfg (connect t) e he
      · have h' : (probeWanConnectivity cfg (connect t)).1 = false := by
          simpa using h
        rw [show (robustLoop cfg connect (fuel + 1) t).2 =
            (probeWanConnectivity cfg (connect t)).2 ++
              (robustLoop cfg connect fuel (t + 1)).2 by
          simp [robustLoop, h']] at he
        rcases List.mem_append.mp he with hm | hm
        · exact probeWanConnectivity_events cfg (connect t) e hm
        · exact robustLoop_events cfg connect fuel (t + 1) e hm

theorem advertiseDefaultRoute_events (cfg : Config) :
    ∀ e ∈ advertiseDefaultRoute cfg,
      e = Ev.setRootMode cfg.setRootModeIfGate ∨ e = Ev.setGatewayStatus true := by
  unfold advertiseDefaultRoute
  by_cases h : cfg.setRootModeIfGate = 0 <;> by_cases h2 : cfg.hasRouting <;>
    simp [h, h2]

theorem withdrawDefaultRoute_events (cfg : Config) :
    ∀ e ∈ withdrawDefaultRoute cfg,
      e = Ev.setRootMode 0 ∨ e = Ev.setGatewayStatus false := by
  unfold withdrawDefaultRoute
  by_cases h : cfg.setRootModeIfGate = 0 <;> by_cases h2 : cfg.hasRouting <;>
    simp [h, h2]

/-- When the gateway is inactive, a flap leaves no observable effect except
the flap itself: the `dampen()` hook (even if suppression is entered) does
nothing. -/
theorem flap_inactive_trace (cfg : Config) (d : ℚ) (s : Monitor)
    (h : s.isGatewayActive = false) :
    (flap cfg d s).2 = [Ev.flapCalled] := by
  unfold flap
  dsimp only
  split
  · simp [dampen, h]
  · rfl

/-- A flap does not change the `isGatewayActive_` flag. -/
theorem flap_isGatewayActive (cfg : Config) (d : ℚ) (s : Monitor) :
    (flap cfg d s).1.isGatewayActive = s.isGatewayActive := by
  unfold flap
  dsimp only
  split <;> rfl

theorem dampen_no_procWrite (cfg : Config) (s : Monitor) :
    ∀ e ∈ dampen cfg s, isProcWrite e = false := by
  intro e he
  unfold dampen at he
  by_cases h : s.isGatewayActive = true
  · rw [if_pos h] at he
    rcases List.mem_cons.mp he with rfl | hm
    · rfl
    · rcases withdrawDefaultRoute_events cfg e hm with rfl | rfl <;> rfl
  · rw [if_neg h] at he
    exact absurd he (List.not_mem_nil e)

theorem flap_no_procWrite (cfg : Config) (d : ℚ) (s : Monitor) :
    ∀ e ∈ (flap cfg d s).2, isProcWrite e = false := by
  intro e he
  unfold flap at he
  by_cases hc : s.suppressed = false ∧ cfg.suppressLimit ≤
      min cfg.maxSuppressLimit
        (min cfg.maxSuppressLimit (s.fom * d) + cfg.penalty)
  · rw [if_pos hc] at he
    rcases List.mem_cons.mp he with rfl | hm
    · rfl
    · exact dampen_no_procWrite cfg _ e hm
  · rw [if_neg hc] at he
    rcases List.mem_singleton.mp he with rfl
    rfl

theorem checkRoutesAndAdvertise_no_procWrite (cfg : Config)
    (connect : Nat → String → SocketResult) (d : ℚ) (s : Monitor) :
    ∀ e ∈ (checkRoutesAndAdvertise cfg connect d s).2, isProcWrite e = false := by
  intro e he
  unfold checkRoutesAndAdvertise at he
  have hprobe : ∀ x ∈ (probeWanConnectivityRobustly cfg connect).2,
      isProcWrite x = false := by
    intro x hx
    rcases robustLoop_events cfg connect cfg.robustness 0 x hx with h | h <;>
      · cases x <;> simp_all [isConnectAttempt, isIncStat, isProcWrite]
  by_cases h : (probeWanConnectivityRobustly cfg connect).1 = true
  · rw [if_pos h] at he
    simp only at he
    rcases List.mem_append.mp he with hm | hm
    · rcases List.mem_append.mp hm with hm2 | hm2
      · exact hprobe e hm2
      · by_cases hd : isDampened s = false
        · rw [if_pos hd] at hm2
          rcases List.mem_cons.mp hm2 with rfl | hm3
          · rfl
          · rcases advertiseDefaultRoute_events cfg e hm3 with rfl | rfl <;> rfl
        · rw [if_neg hd] at hm2
          exact absurd hm2 (List.not_mem_nil e)
    · by_cases ha : s.isGatewayActive = false
      · rw [if_pos ha] at hm
        exact flap_no_procWrite cfg d s e hm
      · rw [if_neg ha] at hm
        exact absurd hm (List.not_mem_nil e)
  · rw [if_neg h] at he
    simp only at he
    rcases List.mem_append.mp he with hm | hm
    · exact hprobe e hm
    · rcases List.mem_cons.mp hm with rfl | hm2
      · rfl
      · rcases withdrawDefaultRoute_events cfg e hm2 with rfl | rfl <;> rfl

theorem ticksTrace_no_procWrite (cfg : Config)
    (connect : Nat → Nat → String → SocketResult) (d : Nat → ℚ) :
    ∀ (n tick : Nat) (s : Monitor),
      ∀ e ∈ ticksTrace cfg connect d n tick s, isProcWrite e = false
  | 0, tick, s => by simp [ticksTrace]
  | n + 1, tick, s => by
      intro e he
      rw [show ticksTrace cfg connect d (n + 1) tick s =
          (checkRoutesAndAdvertise cfg (connect tick) (d tick) s).2 ++
            ticksTrace cfg connect d n (tick + 1)
              (checkRoutesAndAdvertise cfg (connect tick) (d tick) s).1 from
        rfl] at he
      rcases List.mem_append.mp he with hm | hm
      · exact checkRoutesAndAdvertise_no_procWrite cfg (connect tick) (d tick)
          s e hm
      · exact ticksTrace_no_procWrite cfg connect d n (tick + 1) _ e hm

theorem flapCalled_mem_flap (cfg : Config) (d : ℚ) (s : Monitor) :
    Ev.flapCalled ∈ (flap cfg d s).2 := by
  unfold flap
  dsimp only
  split <;> simp

theorem setRootMode_zero_not_mem_advertise (cfg : Config) :
    Ev.setRootMode 0 ∉ advertiseDefaultRoute cfg := by
  unfold advertiseDefaultRoute
  by_cases h0 : cfg.setRootModeIfGate = 0
  · simp [h0]
  · simp [h0, Ne.symm h0]

theorem gwFalse_not_mem_advertise (cfg : Config) :
    Ev.setGatewayStatus false ∉ advertiseDefaultRoute cfg := by
  intro h
  rcases advertiseDefaultRoute_events cfg _ h with h2 | h2 <;> simp at h2

/-! ## Claim theorems -/

/-- Claim C1: the claim says the `dumpMpath` expiry field is `max(0, expTime - now)`
and in particular `0` for an already-expired entry.  The code casts the
signed millisecond count to `uint64_t` before taking the max with unsigned
zero, so an entry expired 1 ms ago yields the wrapped value `2 ^ 64 - 1`,
while the specified value is `0`. -/
theorem dumpMpath_expiry_wraps_for_expired_entry :
    (dumpMpathRow (MeshPath.fresh 1 0) 1).expTimeRemainingMs = 2 ^ 64 - 1 ∧
      expTimeRemainingMsSpec 0 1 = 0 := by
  constructor
  · rfl
  · rfl

/-- Claim C5: the hook `dampen()` records "is_gateway=false" and calls
`withdrawDefaultRoute` exactly when `isGatewayActive` is true at the moment
of the call, `undampen()` records "is_gateway=true" and calls
`advertiseDefaultRoute` exactly when `isGatewayActive` is true; when the
gateway is inactive both hooks do nothing. -/
theorem dampen_undampen_gated (cfg : Config) (s : Monitor) :
    (s.isGatewayActive = true →
      dampen cfg s =
          Ev.debugStat "is_gateway" "false" :: withdrawDefaultRoute cfg ∧
        undampen cfg s =
          Ev.debugStat "is_gateway" "true" :: advertiseDefaultRoute cfg) ∧
    (s.isGatewayActive = false → dampen cfg s = [] ∧ undampen cfg s = []) := by
  constructor <;> intro h <;> simp [dampen, undampen, h]

/-- Witness for claim C5: at a concrete active state the hooks fire; at a concrete
inactive state they do nothing. -/
theorem dampen_undampen_gated_witness :
    dampen cfgW sActiveW =
        Ev.debugStat "is_gateway" "false" :: withdrawDefaultRoute cfgW ∧
      dampen cfgW sInactiveW = [] :=
  ⟨((dampen_undampen_gated cfgW sActiveW).1 rfl).1,
   ((dampen_undampen_gated cfgW sInactiveW).2 rfl).1⟩

/-- Claim C6: with the routing engine attached, `advertiseDefaultRoute` emits a
root-mode write of `setRootModeIfGate` exactly when `setRootModeIfGate ≠ 0`
and ends by calling `setGatewayStatus(true)`; `withdrawDefaultRoute` emits
a root-mode write of `0` exactly when `setRootModeIfGate ≠ 0` and ends by
calling `setGatewayStatus(false)`. -/
theorem advertise_withdraw_semantics (cfg : Config)
    (h : cfg.hasRouting = true) :
    ((Ev.setRootMode cfg.setRootModeIfGate ∈ advertiseDefaultRoute cfg ↔
        cfg.setRootModeIfGate ≠ 0) ∧
      (advertiseDefaultRoute cfg).getLast? =
        some (Ev.setGatewayStatus true)) ∧
    ((Ev.setRootMode 0 ∈ withdrawDefaultRoute cfg ↔
        cfg.setRootModeIfGate ≠ 0) ∧
      (withdrawDefaultRoute cfg).getLast? =
        some (Ev.setGatewayStatus false)) := by
  unfold advertiseDefaultRoute withdrawDefaultRoute
  by_cases h0 : cfg.setRootModeIfGate = 0 <;> simp [h, h0]

/-- Witness for claim C6: with `setRootModeIfGate = 4` the advertise path programs
root mode 4 and the withdraw path ends with `setGatewayStatus(false)`. -/
theorem advertise_withdraw_semantics_witness :
    Ev.setRootMode 4 ∈ advertiseDefaultRoute cfgW ∧
      (withdrawDefaultRoute cfgW).getLast? =
        some (Ev.setGatewayStatus false) :=
  ⟨((advertise_withdraw_semantics cfgW rfl).1).1.mpr (by decide),
   ((advertise_withdraw_semantics cfgW rfl).2).2⟩

/-- Claim C8: a freshly inserted `MeshPath` has `sn = metric = nextHopMetric =
hopCount = 0`, `isRoot = isGate = false` and `expTime = now`; it is not
expired at the instant of creation but is expired at every later instant. -/
theorem getOrInsert_fresh_defaults (table : List (Nat × MeshPath)) (mac : Nat)
    (now : Int) (h : table.lookup mac = none) :
    ((getOrInsert table mac now).1.sn = 0 ∧
      (getOrInsert table mac now).1.metric = 0 ∧
      (getOrInsert table mac now).1.nextHopMetric = 0 ∧
      (getOrInsert table mac now).1.hopCount = 0 ∧
      (getOrInsert table mac now).1.isRoot = false ∧
      (getOrInsert table mac now).1.isGate = false ∧
      (getOrInsert table mac now).1.expTime = now) ∧
    (getOrInsert table mac now).1.expired now = false ∧
    (∀ t : Int, now < t → (getOrInsert table mac now).1.expired t = true) := by
  unfold getOrInsert
  rw [h]
  refine ⟨⟨rfl, rfl, rfl, rfl, rfl, rfl, rfl⟩, ?_, ?_⟩
  · simp [MeshPath.expired, MeshPath.fresh]
  · intro t ht
    simp [MeshPath.expired, MeshPath.fresh, ht]

/-- Witness for claim C8: inserting MAC 7 into an empty table at time 5 gives the
default entry, unexpired at 5 and expired at 6. -/
theorem getOrInsert_fresh_defaults_witness :
    (getOrInsert [] 7 5).1.sn = 0 ∧ (getOrInsert [] 7 5).1.expired 5 = false ∧
      (getOrInsert [] 7 5).1.expired 6 = true :=
  ⟨((getOrInsert_fresh_defaults [] 7 5 rfl).1).1,
   ((getOrInsert_fresh_defaults [] 7 5 rfl).2).1,
   ((getOrInsert_fresh_defaults [] 7 5 rfl).2).2 6 (by decide)⟩

/-- Claim C10: with `robustness = 0` the robust probe returns false with no
probe attempt at all; with no monitored addresses a probe returns false
without any connect attempt, incrementing the failure stat keyed by the
error message of the default-constructed (never assigned) socket result. -/
theorem probe_degenerate_config (cfg : Config)
    (connect : Nat → String → SocketResult) (c : String → SocketResult) :
    (cfg.robustness = 0 →
      probeWanConnectivityRobustly cfg connect = (false, [])) ∧
    (cfg.monitoredAddresses = [] →
      probeWanConnectivity cfg c =
        (false,
          [Ev.incStat
            (probeFailedStatStem ++ SocketResult.default.errorMsg)])) := by
  constructor
  · intro h
    unfold probeWanConnectivityRobustly
    rw [h]
    rfl
  · intro h
    unfold probeWanConnectivity
    rw [h]
    rfl

/-- Witness for claim C10: the two degenerate configurations evaluated concretely. -/
theorem probe_degenerate_config_witness :
    probeWanConnectivityRobustly { cfgW with robustness := 0 } connW =
        (false, []) ∧
      probeWanConnectivity { cfgW with monitoredAddresses := [] } (connW 0) =
        (false,
          [Ev.incStat
            (probeFailedStatStem ++ SocketResult.default.errorMsg)]) :=
  ⟨(probe_degenerate_config { cfgW with robustness := 0 } connW (connW 0)).1
      rfl,
   (probe_degenerate_config { cfgW with monitoredAddresses := [] } connW
      (connW 0)).2 rfl⟩

/-- Claim C3: the robust probe succeeds exactly when one of at most `robustness`
probe calls succeeds; a single probe succeeds exactly when some monitored
address connects; and the connect attempts of a probe are the monitored
addresses in configured order up to and including the first success. -/
theorem probe_semantics (cfg : Config)
    (connect : Nat → String → SocketResult) (c : String → SocketResult) :
    ((probeWanConnectivityRobustly cfg connect).1 = true ↔
      ∃ k < cfg.robustness, (probeWanConnectivity cfg (connect k)).1 = true) ∧
    ((probeWanConnectivity cfg c).1 = true ↔
      ∃ a ∈ cfg.monitoredAddresses, (c a).success = true) ∧
    ((probeWanConnectivity cfg c).2.filter isConnectAttempt =
      (cfg.monitoredAddresses.takeWhile (fun a => !(c a).success) ++
        (cfg.monitoredAddresses.dropWhile (fun a => !(c a).success)).take
          1).map Ev.connectAttempt) := by
  refine ⟨?_, probeWanConnectivity_success_iff cfg c, ?_⟩
  · have h := robustLoop_success_iff cfg connect cfg.robustness 0
    simpa [probeWanConnectivityRobustly] using h
  · rw [probeWanConnectivity_trace, List.filter_append, probeLoop_attempts]
    have h1 : ∀ l : List String,
        (l.map Ev.connectAttempt).filter isConnectAttempt =
          l.map Ev.connectAttempt := by
      intro l
      induction l with
      | nil => rfl
      | cons a rest ih => simp [isConnectAttempt, ih]
    rw [h1]
    simp [isConnectAttempt]

/-- Claim C4: every probe call increments exactly one stat — the success counter
exactly when it succeeded, and on total failure a failure counter keyed by
the error message of the last attempted address; in a tick whose tries
`0..k-1` fail and try `k` succeeds, the success counter is incremented once
and stat counters `k + 1` times in total (so failure counters `k` times). -/
theorem probe_stat_accounting (cfg : Config) (c : String → SocketResult)
    (connect : Nat → String → SocketResult) (k : Nat)
    (hk : k < cfg.robustness)
    (hfail : ∀ j < k, (probeWanConnectivity cfg (connect j)).1 = false)
    (hsucc : (probeWanConnectivity cfg (connect k)).1 = true) :
    ((probeWanConnectivity cfg c).2.countP isIncStat = 1 ∧
      (probeWanConnectivity cfg c).2.countP isSuccessStat =
        (if (probeWanConnectivity cfg c).1 = true then 1 else 0)) ∧
    ((probeWanConnectivity cfg c).1 = false →
      Ev.incStat (probeFailedStatStem ++
        (((cfg.monitoredAddresses.getLast?).map c).getD
          SocketResult.default).errorMsg) ∈ (probeWanConnectivity cfg c).2) ∧
    ((probeWanConnectivityRobustly cfg connect).2.countP isSuccessStat = 1 ∧
      (probeWanConnectivityRobustly cfg connect).2.countP isIncStat =
        k + 1) := by
  refine ⟨⟨probeWanConnectivity_countP_incStat cfg c,
      probeWanConnectivity_countP_successStat cfg c⟩, ?_, ?_⟩
  · intro hfalse
    have hloop : (probeLoop c cfg.monitoredAddresses SocketResult.default).1 =
        false := by
      rw [← probeWanConnectivity_fst]
      exact hfalse
    have hall : ∀ a ∈ cfg.monitoredAddresses, (c a).success = false := by
      intro a ha
      by_contra hne
      have hsucc' : (c a).success = true := by
        cases hs : (c a).success
        · exact absurd hs hne
        · rfl
      have := (probeLoop_success_iff c cfg.monitoredAddresses
        SocketResult.default).mpr ⟨a, ha, hsucc'⟩
      rw [hloop] at this
      cases this
    have hres := probeLoop_allFail_result c cfg.monitoredAddresses
      SocketResult.default hall
    rw [probeWanConnectivity_trace, hloop]
    rw [hres]
    simp
  · have hfail' : ∀ j < k,
        (probeWanConnectivity cfg (connect (0 + j))).1 = false := by
      intro j hj
      simpa using hfail j hj
    have hsucc' : (probeWanConnectivity cfg (connect (0 + k))).1 = true := by
      simpa using hsucc
    exact robustLoop_first_success_counts cfg connect k cfg.robustness 0 hk
      hfail' hsucc'

/-- Witness for claim C4: with two addresses and `robustness = 3`, where tries 0 and
1 fail and try 2 succeeds, the tick increments the success counter once and
stat counters three times (two failures, one success). -/
theorem probe_stat_accounting_witness :
    (probeWanConnectivityRobustly cfgW connW).2.countP isSuccessStat = 1 ∧
      (probeWanConnectivityRobustly cfgW connW).2.countP isIncStat = 3 :=
  (probe_stat_accounting cfgW (connW 0) connW 2 (by decide) (by decide)
    (by decide)).2.2

/-- Claim C2: on a tick whose robust probe succeeds, the monitor ends active;
when the dampener is not suppressed it records "is_gateway=true" and
advertises the default route; when previously inactive it calls `flap()`.
On a tick whose robust probe fails, it records "is_gateway=false",
withdraws the default route and ends inactive. -/
theorem checkRoutesAndAdvertise_tick (cfg : Config)
    (connect : Nat → String → SocketResult) (d : ℚ) (s : Monitor) :
    ((probeWanConnectivityRobustly cfg connect).1 = true →
      (checkRoutesAndAdvertise cfg connect d s).1.isGatewayActive = true ∧
      (s.suppressed = false →
        (Ev.debugStat "is_gateway" "true" :: advertiseDefaultRoute cfg) <:+:
          (checkRoutesAndAdvertise cfg connect d s).2) ∧
      (s.isGatewayActive = false →
        Ev.flapCalled ∈ (checkRoutesAndAdvertise cfg connect d s).2)) ∧
    ((probeWanConnectivityRobustly cfg connect).1 = false →
      (checkRoutesAndAdvertise cfg connect d s).1.isGatewayActive = false ∧
      (checkRoutesAndAdvertise cfg connect d s).2 =
        (probeWanConnectivityRobustly cfg connect).2 ++
          Ev.debugStat "is_gateway" "false" :: withdrawDefaultRoute cfg) := by
  constructor
  · intro hok
    unfold checkRoutesAndAdvertise
    dsimp only
    rw [if_pos hok]
    refine ⟨rfl, ?_, ?_⟩
    · intro hsup
      rw [if_pos (show isDampened s = false from hsup)]
      exact ⟨(probeWanConnectivityRobustly cfg connect).2,
        (if s.isGatewayActive = false then flap cfg d s else (s, [])).2,
        by simp⟩
    · intro hinact
      rw [if_pos hinact]
      refine List.mem_append.mpr (Or.inr ?_)
      exact flapCalled_mem_flap cfg d s
  · intro hfail
    unfold checkRoutesAndAdvertise
    dsimp only
    rw [if_neg (by simp [hfail])]
    exact ⟨rfl, rfl⟩

/-- Witness for claim C2: a successful tick from the inactive, unsuppressed state
ends active and contains a flap. -/
theorem checkRoutesAndAdvertise_tick_witness :
    (checkRoutesAndAdvertise cfgW connW 1 sInactiveW).1.isGatewayActive =
        true ∧
      Ev.flapCalled ∈ (checkRoutesAndAdvertise cfgW connW 1 sInactiveW).2 :=
  ⟨((checkRoutesAndAdvertise_tick cfgW connW 1 sInactiveW).1 (by decide)).1,
   ((checkRoutesAndAdvertise_tick cfgW connW 1 sInactiveW).1
      (by decide)).2.2 rfl⟩

/-- Claim C9: on a successful tick that starts with the gateway inactive, the
flap happens while `isGatewayActive_` is still false, so even if it pushes
the dampener into suppression the `dampen()` hook emits nothing: no
`setGatewayStatus(false)` and no root-mode reset occur anywhere in the
tick, and (when not suppressed at the start, with the routing engine
attached) the `setGatewayStatus(true)` advertised earlier in the tick
stands. -/
theorem flap_during_inactive_tick_keeps_advertised (cfg : Config)
    (connect : Nat → String → SocketResult) (d : ℚ) (s : Monitor)
    (hok : (probeWanConnectivityRobustly cfg connect).1 = true)
    (hinact : s.isGatewayActive = false) :
    Ev.setGatewayStatus false ∉ (checkRoutesAndAdvertise cfg connect d s).2 ∧
    Ev.setRootMode 0 ∉ (checkRoutesAndAdvertise cfg connect d s).2 ∧
    (s.suppressed = false → cfg.hasRouting = true →
      Ev.setGatewayStatus true ∈ (checkRoutesAndAdvertise cfg connect d s).2) := by
  have htrace : (checkRoutesAndAdvertise cfg connect d s).2 =
      (probeWanConnectivityRobustly cfg connect).2 ++
        (if isDampened s = false then
          Ev.debugStat "is_gateway" "true" :: advertiseDefaultRoute cfg
        else []) ++ [Ev.flapCalled] := by
    unfold checkRoutesAndAdvertise
    dsimp only
    rw [if_pos hok, if_pos hinact, flap_inactive_trace cfg d s hinact]
  have hprobe : ∀ e ∈ (probeWanConnectivityRobustly cfg connect).2,
      isConnectAttempt e = true ∨ isIncStat e = true :=
    robustLoop_events cfg connect cfg.robustness 0
  have hadv : ∀ e, e ∈ (if isDampened s = false then
      Ev.debugStat "is_gateway" "true" :: advertiseDefaultRoute cfg
      else []) →
      e = Ev.setGatewayStatus false → False := by
    intro e he heq
    subst heq
    by_cases hd : isDampened s = false
    · rw [if_pos hd] at he
      rcases List.mem_cons.mp he with h | h
      · cases h
      · exact gwFalse_not_mem_advertise cfg h
    · rw [if_neg hd] at he
      exact (List.not_mem_nil _ he)
  have hadv0 : ∀ e, e ∈ (if isDampened s = false then
      Ev.debugStat "is_gateway" "true" :: advertiseDefaultRoute cfg
      else []) →
      e = Ev.setRootMode 0 → False := by
    intro e he heq
    subst heq
    by_cases hd : isDampened s = false
    · rw [if_pos hd] at he
      rcases List.mem_cons.mp he with h | h
      · cases h
      · exact setRootMode_zero_not_mem_advertise cfg h
    · rw [if_neg hd] at he
      exact (List.not_mem_nil _ he)
  rw [htrace]
  refine ⟨?_, ?_, ?_⟩
  · intro hmem
    rcases List.mem_append.mp hmem with hm | hm
    · rcases List.mem_append.mp hm with hm2 | hm2
      · rcases hprobe _ hm2 with h | h <;> cases h
      · exact hadv _ hm2 rfl
    · rcases List.mem_singleton.mp hm
  · intro hmem
    rcases List.mem_append.mp hmem with hm | hm
    · rcases List.mem_append.mp hm with hm2 | hm2
      · rcases hprobe _ hm2 with h | h <;> cases h
      · exact hadv0 _ hm2 rfl
    · rcases List.mem_singleton.mp hm
  · intro hsup hrouting
    refine List.mem_append.mpr (Or.inl (List.mem_append.mpr (Or.inr ?_)))
    rw [if_pos (show isDampened s = false from hsup)]
    refine List.mem_cons.mpr (Or.inr ?_)
    unfold advertiseDefaultRoute
    rw [hrouting]
    simp

/-- Witness for claim C9: the successful inactive-start tick at the concrete
configuration never emits `setGatewayStatus(false)`. -/
theorem flap_during_inactive_tick_witness :
    Ev.setGatewayStatus false ∉
      (checkRoutesAndAdvertise cfgW connW 1 sInactiveW).2 :=
  (flap_during_inactive_tick_keeps_advertised cfgW connW 1 sInactiveW
    (by decide) rfl).1

/-- Claim C7: over a whole monitor run — construction followed by any number of
probe ticks — the only proc-fs writes are the two rp_filter writes of the
constructor, one to the monitored interface's file and one to the global
file, and they precede every tick event. -/
theorem rp_filter_written_once (cfg : Config)
    (connect : Nat → Nat → String → SocketResult) (d : Nat → ℚ) (n : Nat)
    (s : Monitor) :
    (monitorTrace cfg connect d n s).filter isProcWrite =
      [Ev.procWrite (rpFilterPath cfg.monitoredInterface) "0",
        Ev.procWrite rpFilterAllPath "0"] ∧
    (monitorTrace cfg connect d n s).take 2 =
      [Ev.procWrite (rpFilterPath cfg.monitoredInterface) "0",
        Ev.procWrite rpFilterAllPath "0"] := by
  constructor
  · unfold monitorTrace
    rw [List.filter_append]
    have h1 : (constructorEvents cfg).filter isProcWrite =
        constructorEvents cfg := by
      simp [constructorEvents, isProcWrite]
    have h2 : (ticksTrace cfg connect d n 0 s).filter isProcWrite = [] := by
      rw [List.filter_eq_nil_iff]
      intro e he
      simp [ticksTrace_no_procWrite cfg connect d n 0 s e he]
    rw [h1, h2, List.append_nil]
    rfl
  · unfold monitorTrace constructorEvents
    simp

end fbmeshd
